import Mathlib

/-!
Verification of the notebook-to-PDF conversion scripts
(`notebook_to_pdf_toc.py` and `notebook_to_pdf.py`).

The heading extraction, slug generation, TOC generation, body augmentation
and the orchestration behaviour (startup check, MathJax wait, temporary-file
cleanup) are embedded shallowly below, following the Python source line by
line.
-/

namespace NbToPdf

/-! ### The parsed document model

`extract_headings` consumes a BeautifulSoup tree only through
`soup.find_all(['h1', 'h2', 'h3', 'h4'])`, `tag.get_text()`, `tag.get('id')`
and `tag['id'] = ...`.  We therefore model the parsed markup as the list of
its elements in document order, each carrying its name, its text content
(the result of `get_text()`) and its optional `id` attribute. -/

structure Tag where
  name : String
  text : String
  id : Option String
deriving Repr, DecidableEq

/-- A Heading Record: `{'level': level, 'text': text, 'id': anchor_id}`. -/
structure HeadingRec where
  level : Nat
  text : String
  id : String
deriving Repr, DecidableEq

/-- `soup.find_all(['h1', 'h2', 'h3', 'h4'])` matches exactly these names. -/
def isHeadingName (s : String) : Bool :=
  s = "h1" || s = "h2" || s = "h3" || s = "h4"

/-- `int(tag.name[1])`: the digit character at index 1 of the tag name. -/
def tagLevel (s : String) : Nat :=
  match s.data.get? 1 with
  | some c => c.toNat - 48
  | none => 0

/-- Python `str.strip()` on a character list: drop whitespace at both ends. -/
def pyStrip (l : List Char) : List Char :=
  ((l.dropWhile Char.isWhitespace).reverse.dropWhile Char.isWhitespace).reverse

/-- `tag.get_text().strip().replace('¶', '').replace('§', '').strip()` -/
def headingText (s : String) : String :=
  ⟨pyStrip (((pyStrip s.data).filter (fun c => c ≠ '¶')).filter (fun c => c ≠ '§'))⟩

/-- Python `\w` word characters (ASCII fragment): alphanumeric or underscore. -/
def isWordChar (c : Char) : Bool :=
  c.isAlphanum || c = '_'

/-- A character matched by the regular-expression class `[-\s]`. -/
def isDashOrSpace (c : Char) : Bool :=
  c.isWhitespace || c = '-'

mutual

/-- `re.sub(r'[-\s]+', '-', ...)`: each maximal run of whitespace/hyphen
characters becomes a single hyphen. -/
def collapseRuns : List Char → List Char
  | [] => []
  | c :: rest =>
    if isDashOrSpace c then '-' :: afterRun rest else c :: collapseRuns rest

/-- Inside a run of `[-\s]` characters (the hyphen is already emitted). -/
def afterRun : List Char → List Char
  | [] => []
  | c :: rest =>
    if isDashOrSpace c then afterRun rest else c :: collapseRuns rest

end

/-- The base slug of a heading text:
`base_id = re.sub(r'[^\w\s-]', '', text.lower())` followed by
`base_id = re.sub(r'[-\s]+', '-', base_id)`. -/
def slugify (s : String) : String :=
  let lowered := s.data.map Char.toLower
  let kept := lowered.filter (fun c => isWordChar c || c.isWhitespace || c = '-')
  ⟨collapseRuns kept⟩

/-- The anchor produced from a base slug and the counter value reached for
it: value `0` is the bare base, value `n + 1` is `f"{base_id}-{n + 1}"`
(Python renders the suffix with `str`, i.e. decimal). -/
def anchorName (base : String) : Nat → String
  | 0 => base
  | n + 1 => base ++ "-" ++ Nat.repr (n + 1)

/-- The `heading_counter` dict, as a partial map from base slug to the last
suffix value stored for it. -/
def Counter : Type := String → Option Nat

/-- The value `heading_counter[base_id]` holds after the branch on
`base_id in heading_counter` runs: `n + 1` after
`heading_counter[base_id] += 1`, `0` after `heading_counter[base_id] = 0`. -/
def nextCount (c : Counter) (base : String) : Nat :=
  match c base with
  | some n => n + 1
  | none => 0

/-- The counter after the branch: `base` now maps to `nextCount c base`. -/
def bumpCounter (c : Counter) (base : String) : Counter :=
  fun b => if b = base then some (nextCount c base) else c b

/-- One iteration of the `for tag in soup.find_all(...)` body for a matched
tag with non-empty stripped text: the record appended to `headings`, the
(possibly mutated) tag, and the updated counter.  Per the source,
`tag['id'] = anchor_id` runs only when `not tag.get('id')` — an absent
attribute and an empty-string attribute are both falsy; otherwise the
existing attribute value overrides `anchor_id`. -/
def processHeading (c : Counter) (t : Tag) : HeadingRec × Tag × Counter :=
  let text := headingText t.text
  let base := slugify text
  let anchor := anchorName base (nextCount c base)
  if t.id.getD "" = "" then
    (⟨tagLevel t.name, text, anchor⟩, { t with id := some anchor }, bumpCounter c base)
  else
    (⟨tagLevel t.name, text, t.id.getD ""⟩, t, bumpCounter c base)

/-- `extract_headings`: walk the document in order, record and anchor every
`h1`–`h4` tag whose stripped text is non-empty.  Returns the Heading
Records, the mutated document, and (to make the loop state explicit) the
final `heading_counter`. -/
def extract_headings : List Tag → Counter → List HeadingRec × List Tag × Counter
  | [], c => ([], [], c)
  | t :: rest, c =>
    if isHeadingName t.name then
      if headingText t.text = "" then
        let r := extract_headings rest c
        (r.1, t :: r.2.1, r.2.2)
      else
        let p := processHeading c t
        let r := extract_headings rest p.2.2
        (p.1 :: r.1, p.2.1 :: r.2.1, r.2.2)
    else
      let r := extract_headings rest c
      (r.1, t :: r.2.1, r.2.2)

/-- The empty `heading_counter = {}` at the start of `extract_headings`. -/
def emptyCounter : Counter := fun _ => none

/-! ### `generate_title_page` and `generate_toc` -/

/-- `generate_title_page(title, subtitle, color)`: the title-page fragment. -/
def generate_title_page (title subtitle color : String) : String :=
  "\n    <div id=\"title-page\" style=\"\n        page-break-after: always;\n        display: flex;\n        flex-direction: column;\n        justify-content: center;\n        align-items: center;\n        min-height: 90vh;\n        text-align: center;\n        font-family: -apple-system, BlinkMacSystemFont, 'Segoe UI', Helvetica, Arial, sans-serif;\n    \">\n        <h1 style=\"\n            color: "
    ++ color
    ++ ";\n            font-size: 2.5em;\n            font-weight: bold;\n            margin-bottom: 20px;\n            line-height: 1.3;\n        \">"
    ++ title
    ++ "</h1>\n        <h2 style=\"\n            color: "
    ++ color
    ++ ";\n            font-size: 1.8em;\n            font-weight: normal;\n            margin-top: 0;\n        \">"
    ++ subtitle
    ++ "</h2>\n    </div>\n    "

/-- The `(font_size, font_weight)` pair chosen for a TOC entry by the
`if level == 1 / elif level == 2 / elif level == 3 / else` chain. -/
def tocStyle (level : Nat) : String × String :=
  if level = 1 then ("1.1em", "bold")
  else if level = 2 then ("1.05em", "600")
  else if level = 3 then ("1em", "normal")
  else ("0.95em", "normal")

/-- The data interpolated into one `<div><a ...>` TOC entry: the indent
`(level - 1) * 25`, the style pair, the link color, the href
`#<anchor_id>` and the verbatim heading text. -/
structure TocEntry where
  indent : Nat
  fontSize : String
  fontWeight : String
  color : String
  href : String
  text : String
deriving Repr, DecidableEq

/-- The TOC entry generated for one Heading Record. -/
def tocEntry (color : String) (h : HeadingRec) : TocEntry :=
  ⟨(h.level - 1) * 25, (tocStyle h.level).1, (tocStyle h.level).2,
   color, "#" ++ h.id, h.text⟩

/-- The links of the TOC fragment: one entry per Heading Record, in order
(the `for heading in headings` loop of `generate_toc`). -/
def tocEntries (headings : List HeadingRec) (color : String) : List TocEntry :=
  headings.map (tocEntry color)

/-- Serialization of one TOC entry, as appended to `toc_html` per loop
iteration. -/
def tocEntryHtml (e : TocEntry) : String :=
  "\n            <div style=\"margin-left: "
    ++ Nat.repr e.indent
    ++ "px; margin-bottom: 8px;\">\n                <a href=\""
    ++ e.href
    ++ "\" style=\"\n                    text-decoration: none;\n                    color: "
    ++ e.color
    ++ ";\n                    font-size: "
    ++ e.fontSize
    ++ ";\n                    font-weight: "
    ++ e.fontWeight
    ++ ";\n                \">"
    ++ e.text
    ++ "</a>\n            </div>\n        "

/-- The opening of the TOC fragment (`toc_html = f'''...'''`). -/
def tocHeaderHtml (color : String) : String :=
  "\n    <div id=\"table-of-contents\" style=\"\n        page-break-after: always;\n        padding: 40px 20px;\n        margin: 0;\n        font-family: -apple-system, BlinkMacSystemFont, 'Segoe UI', Helvetica, Arial, sans-serif;\n    \">\n        <h1 style=\"\n            text-align: center;\n            color: "
    ++ color
    ++ ";\n            margin-bottom: 40px;\n            font-size: 2em;\n            font-weight: normal;\n            border-bottom: 2px solid "
    ++ color
    ++ ";\n            padding-bottom: 15px;\n        \">Table of Contents</h1>\n        <div style=\"line-height: 2.0;\">\n    "

/-- `generate_toc(headings, color)`: header, one serialized entry per
heading, then the closing `'</div></div>'`. -/
def generate_toc (headings : List HeadingRec) (color : String) : String :=
  tocHeaderHtml color
    ++ String.join ((tocEntries headings color).map tocEntryHtml)
    ++ "</div></div>"

/-! ### Body augmentation

`convert_to_pdf_with_toc` inserts the generated fragments:

```
body_tag = soup.find('body')
if body_tag:
    body_tag.insert(0, toc_soup)
    body_tag.insert(0, title_soup)
```

We model the parsed document for this step as the optional child list of
its `<body>` element (absent when `soup.find('body')` returns `None`) plus
the rest of the markup, which insertion never touches. -/

/-- BeautifulSoup's `tag.insert(position, node)`: insert at an index of the
child list. -/
def bsInsert (i : Nat) (x : α) (l : List α) : List α :=
  l.take i ++ x :: l.drop i

/-- A markup document as seen by the fragment-insertion step. -/
structure HtmlDoc where
  body : Option (List String)
  rest : String
deriving Repr, DecidableEq

/-- Lines 177–182 of `notebook_to_pdf_toc.py`: insert the TOC fragment at
position 0, then the title fragment at position 0; skip when there is no
body. -/
def insert_title_and_toc (title_html toc_html : String) (d : HtmlDoc) : HtmlDoc :=
  match d.body with
  | some children =>
      { d with body := some (bsInsert 0 title_html (bsInsert 0 toc_html children)) }
  | none => d

/-! ### Orchestration: startup guard, MathJax wait, cleanup

The remaining claims concern control flow around external effects
(subprocess, filesystem, browser).  We model each run by the observable
outcome of its effectful steps. -/

/-- What `main` has done by the time it decides whether to proceed:
both scripts run

```
if not notebook_path.exists():
    print(f"Error: {notebook_path} not found")
    sys.exit(1)
```

before any subprocess call or file creation. -/
structure StartResult where
  exitCode : Option Nat
  converterInvoked : Bool
  tempFilesCreated : Nat
deriving Repr, DecidableEq

/-- The startup guard shared by both scripts' `main`, as a function of
whether the source path exists.  When it exists, the run goes on to invoke
`nbconvert` and later creates the two temporary markup files. -/
def main_start (sourceExists : Bool) : StartResult :=
  if !sourceExists then
    { exitCode := some 1, converterInvoked := false, tempFilesCreated := 0 }
  else
    { exitCode := none, converterInvoked := true, tempFilesCreated := 2 }

/-- How the MathJax readiness wait inside the rendering block resolves:
`page.wait_for_function("typeof MathJax !== 'undefined'", timeout=15000)`
either succeeds, times out, or the later `page.evaluate` raises. -/
inductive MathJaxEvent where
  | ok
  | timeout
  | evalError
deriving Repr, DecidableEq

/-- The `timeout=15000` (milliseconds) passed to `wait_for_function`. -/
def wait_for_function_timeout_ms : Nat := 15000

/-- Observable result of the try/except block around the MathJax wait
(identical in both scripts). -/
structure RenderResult where
  warned : Bool
  waits : List Nat
  pdfProduced : Bool
deriving Repr, DecidableEq

/-- The try/except block around the MathJax wait, then `page.pdf(...)`:

- success: `wait_for_timeout(2000)`, typeset, `wait_for_timeout(3000)`;
- timeout of `wait_for_function`: the except branch prints the warning and
  runs `wait_for_timeout(5000)`;
- `page.evaluate` raising: the 2000 ms wait already happened, then the
  except branch prints the warning and runs `wait_for_timeout(5000)`.

In every case control reaches `page.pdf(...)`. -/
def render_stage : MathJaxEvent → RenderResult
  | .ok => ⟨false, [2000, 3000], true⟩
  | .timeout => ⟨true, [5000], true⟩
  | .evalError => ⟨true, [2000, 5000], true⟩

/-- Which of the temporary markup artifacts of one conversion run are on
disk when the run finishes, plus whether the PDF was produced.  `html` is
the converter output (`<stem>.html`), `temp` the augmented copy
(`<stem>_toc.html` in the TOC variant, `<stem>_mathjax.html` in the basic
one). -/
structure DiskState where
  html : Bool
  temp : Bool
  pdf : Bool
deriving Repr, DecidableEq

/-- How a run that got past the conversion stage (so `html` exists) ends:
the stage that raises, if any.  `readError` is a failure while reading the
converter output; `writeError` is a failure in `f.write` after
`open(temp_html, 'w')` has already created the augmented copy — both
before the rendering block (a failure in `open` itself, with no file
created, looks like `readError`); `renderError` is any exception inside
the playwright block. -/
inductive RunOutcome where
  | success
  | readError
  | writeError
  | renderError
deriving Repr, DecidableEq

/-- Final disk state of `convert_to_pdf_with_toc` after `nbconvert`
succeeded.  Its `finally` clause (lines 244–248) unlinks both `temp_html`
and `html_path` when they exist, but only failures raised inside the
`try` reach it: a failure before the `try` propagates with no cleanup, so
a `readError` leaves the converter output behind, and a `writeError`
additionally leaves the augmented copy that `open(temp_html, 'w')`
created (lines 211–213) before the `try` begins at line 215. -/
def run_toc_after_convert : RunOutcome → DiskState
  | .success => ⟨false, false, true⟩
  | .readError => ⟨true, false, false⟩
  | .writeError => ⟨true, true, false⟩
  | .renderError => ⟨false, false, false⟩

/-- Final disk state of the basic variant after `nbconvert` succeeded.
`convert_html_to_pdf`'s `finally` (lines 85–87) unlinks only `temp_html`;
`main` unlinks `html_path` (line 120) only after `asyncio.run` returns
normally, so a rendering failure leaves the converter output on disk.
A `writeError` also leaves the augmented copy that
`open(temp_html, 'w')` created (lines 53–55) before the `try` begins at
line 57. -/
def run_basic_after_convert : RunOutcome → DiskState
  | .success => ⟨false, false, true⟩
  | .readError => ⟨true, false, false⟩
  | .writeError => ⟨true, true, false⟩
  | .renderError => ⟨true, false, false⟩

/-! ## Lemmas about `extract_headings` -/

theorem processHeading_tag_fields (c : Counter) (t : Tag) :
    (processHeading c t).2.1.name = t.name ∧ (processHeading c t).2.1.text = t.text := by
  unfold processHeading
  split <;> exact ⟨rfl, rfl⟩

/-- Re-processing the tag a heading iteration produced, with the same
incoming counter, changes nothing: the anchor already stored on the tag is
what the iteration would pick again. -/
theorem processHeading_idem (c : Counter) (t : Tag) :
    processHeading c (processHeading c t).2.1 = processHeading c t := by
  by_cases h : t.id.getD "" = ""
  · simp only [processHeading, h, if_true]
    by_cases ha : anchorName (slugify (headingText t.text))
        (nextCount c (slugify (headingText t.text))) = "" <;>
      simp [ha]
  · simp only [processHeading, h, if_false]

/-- Running `extract_headings` on its own mutated output, from the same
initial counter, reproduces the records, the document and the counter of
the first run. -/
theorem extract_headings_idem (doc : List Tag) (c : Counter) :
    extract_headings (extract_headings doc c).2.1 c = extract_headings doc c := by
  induction doc generalizing c with
  | nil => rfl
  | cons t rest ih =>
    by_cases hh : isHeadingName t.name
    · by_cases he : headingText t.text = ""
      · simp [extract_headings, hh, he, ih]
      · have hf := processHeading_tag_fields c t
        simp only [extract_headings, hh, he, if_true, if_false, hf.1, hf.2,
          processHeading_idem, ih]
    · simp [extract_headings, hh, ih]

/-- The headings of levels 1–4 whose stripped text is non-empty: exactly
the tags for which the extraction loop emits a record. -/
def countedHeadings (doc : List Tag) : List Tag :=
  doc.filter (fun t => isHeadingName t.name && (headingText t.text != ""))

/-- One record is emitted per counted heading. -/
theorem extract_headings_length (doc : List Tag) (c : Counter) :
    (extract_headings doc c).1.length = (countedHeadings doc).length := by
  induction doc generalizing c with
  | nil => rfl
  | cons t rest ih =>
    by_cases hh : isHeadingName t.name
    · by_cases he : headingText t.text = ""
      · simp [extract_headings, countedHeadings, hh, he, ih (c := c)]
      · simpa [extract_headings, countedHeadings, hh, he] using
          ih (c := (processHeading c t).2.2)
    · simp [extract_headings, countedHeadings, hh, ih (c := c)]

/-- Extraction processes a concatenated document left to right, threading
the counter. -/
theorem extract_headings_append (l₁ l₂ : List Tag) (c : Counter) :
    extract_headings (l₁ ++ l₂) c
      = ((extract_headings l₁ c).1
           ++ (extract_headings l₂ (extract_headings l₁ c).2.2).1,
         (extract_headings l₁ c).2.1
           ++ (extract_headings l₂ (extract_headings l₁ c).2.2).2.1,
         (extract_headings l₂ (extract_headings l₁ c).2.2).2.2) := by
  induction l₁ generalizing c with
  | nil => rfl
  | cons t rest ih =>
    by_cases hh : isHeadingName t.name
    · by_cases he : headingText t.text = ""
      · simp [extract_headings, hh, he, ih (c := c)]
      · simp [extract_headings, hh, he, ih (c := (processHeading c t).2.2)]
    · simp [extract_headings, hh, ih (c := c)]

/-! ## Injectivity of the decimal suffix

The collision suffix is rendered with Python's `str`, embedded as
`Nat.repr`.  We show `Nat.repr` is injective on positive numbers by
relating it to `Nat.digits`, and conclude that `anchorName base` is
injective. -/

theorem digitChar_inj_lt :
    ∀ a < 10, ∀ b < 10, Nat.digitChar a = Nat.digitChar b → a = b := by
  decide

theorem map_digitChar_inj (l₁ : List Nat) : ∀ l₂ : List Nat,
    (∀ d ∈ l₁, d < 10) → (∀ d ∈ l₂, d < 10) →
    l₁.map Nat.digitChar = l₂.map Nat.digitChar → l₁ = l₂ := by
  induction l₁ with
  | nil =>
    intro l₂ _ _ h
    cases l₂ with
    | nil => rfl
    | cons b l₂ => simp at h
  | cons a l₁ ih =>
    intro l₂ h₁ h₂ h
    cases l₂ with
    | nil => simp at h
    | cons b l₂ =>
      simp only [List.map_cons, List.cons.injEq] at h
      have hab : a = b :=
        digitChar_inj_lt a (h₁ a (by simp)) b (h₂ b (by simp)) h.1
      subst hab
      rw [ih l₂ (fun d hd => h₁ d (List.mem_cons_of_mem _ hd))
        (fun d hd => h₂ d (List.mem_cons_of_mem _ hd)) h.2]

theorem toDigitsCore_eq_digits :
    ∀ (f n : Nat) (acc : List Char), 0 < n → n < f →
      Nat.toDigitsCore 10 f n acc
        = ((Nat.digits 10 n).map Nat.digitChar).reverse ++ acc := by
  intro f
  induction f with
  | zero => intro n acc hn hf; omega
  | succ f ih =>
    intro n acc hn hf
    rw [Nat.digits_def' (by norm_num : (1 : ℕ) < 10) hn]
    simp only [Nat.toDigitsCore]
    by_cases h : n / 10 = 0
    · rw [if_pos h, h, Nat.digits_zero]
      simp
    · rw [if_neg h]
      have hn' : 0 < n / 10 := Nat.pos_of_ne_zero h
      have hf' : n / 10 < f := by
        have : n / 10 < n := Nat.div_lt_self hn (by norm_num)
        omega
      rw [ih (n / 10) (Nat.digitChar (n % 10) :: acc) hn' hf']
      simp

theorem repr_eq_digits (n : Nat) (hn : 0 < n) :
    Nat.repr n = String.mk (((Nat.digits 10 n).map Nat.digitChar).reverse) := by
  show (Nat.toDigits 10 n).asString = _
  rw [Nat.toDigits, toDigitsCore_eq_digits (n + 1) n [] hn (Nat.lt_succ_self n)]
  simp [List.asString]

theorem repr_inj_pos {m n : Nat} (hm : 0 < m) (hn : 0 < n)
    (h : Nat.repr m = Nat.repr n) : m = n := by
  rw [repr_eq_digits m hm, repr_eq_digits n hn] at h
  have h2 : ((Nat.digits 10 m).map Nat.digitChar).reverse
      = ((Nat.digits 10 n).map Nat.digitChar).reverse := by
    simpa using congrArg String.data h
  have h3 := List.reverse_injective h2
  exact Nat.digits.injective 10 (map_digitChar_inj _ _
    (fun d hd => Nat.digits_lt_base (by norm_num) hd)
    (fun d hd => Nat.digits_lt_base (by norm_num) hd) h3)

theorem anchorName_inj (b : String) : ∀ {m n : Nat},
    anchorName b m = anchorName b n → m = n := by
  intro m n h
  cases m with
  | zero =>
    cases n with
    | zero => rfl
    | succ k =>
      exfalso
      have hl := congrArg String.length h
      have h1 : ("-" : String).length = 1 := rfl
      simp only [anchorName, String.length_append, h1] at hl
      omega
  | succ j =>
    cases n with
    | zero =>
      exfalso
      have hl := congrArg String.length h
      have h1 : ("-" : String).length = 1 := rfl
      simp only [anchorName, String.length_append, h1] at hl
      omega
    | succ k =>
      have hd := congrArg String.data h
      simp only [anchorName, String.data_append, List.append_assoc,
        List.append_cancel_left_eq] at hd
      have h2 : Nat.repr (j + 1) = Nat.repr (k + 1) := by
        apply congrArg String.mk
        exact hd
      have := repr_inj_pos (Nat.succ_pos j) (Nat.succ_pos k) h2
      omega

/-! ## The anchors produced for one base slug -/

theorem nextCount_bump_self (c : Counter) (b : String) :
    nextCount (bumpCounter c b) b = nextCount c b + 1 := by
  simp [nextCount, bumpCounter]

theorem nextCount_bump_ne (c : Counter) (b b' : String) (h : b' ≠ b) :
    nextCount (bumpCounter c b) b' = nextCount c b' := by
  simp [nextCount, bumpCounter, h]

/-- The number of counted headings of the document whose text slugifies to
`b`. -/
def countWithBase (doc : List Tag) (b : String) : Nat :=
  (doc.filter (fun t => isHeadingName t.name && (headingText t.text != "")
      && (slugify (headingText t.text) == b))).length

theorem countWithBase_cons (t : Tag) (rest : List Tag) (b : String) :
    countWithBase (t :: rest) b
      = if isHeadingName t.name && (headingText t.text != "")
            && (slugify (headingText t.text) == b)
        then countWithBase rest b + 1 else countWithBase rest b := by
  simp only [countWithBase, List.filter_cons]
  split <;> simp

/-- On a document with no pre-set ids, the anchors handed to the headings of
base slug `b` are consecutive suffix values starting at the incoming
counter's next value: `anchorName b` over
`nextCount c b, nextCount c b + 1, …`. -/
theorem extract_ids_of_base (doc : List Tag) (c : Counter) (b : String)
    (hids : ∀ t ∈ doc, t.id.getD "" = "") :
    ((extract_headings doc c).1.filter
        (fun r => slugify r.text == b)).map (fun r => r.id)
      = (List.range' (nextCount c b) (countWithBase doc b)).map (anchorName b) := by
  induction doc generalizing c with
  | nil => rfl
  | cons t rest ih =>
    have hrest : ∀ t' ∈ rest, t'.id.getD "" = "" :=
      fun t' ht' => hids t' (List.mem_cons_of_mem _ ht')
    by_cases hh : isHeadingName t.name
    · by_cases he : headingText t.text = ""
      · simp [extract_headings, countWithBase, hh, he, ih c hrest]
      · have hid : t.id.getD "" = "" := hids t (List.mem_cons_self _ _)
        rw [countWithBase_cons]
        by_cases hb : slugify (headingText t.text) = b
        · simp only [extract_headings, hh, he, if_true, if_false,
            processHeading, hid, hb]
          have := ih (bumpCounter c (slugify (headingText t.text))) hrest
          rw [hb] at this
          simp only [hb, beq_self_eq_true, Bool.and_true, bne_iff_ne, ne_eq,
            he, not_false_iff, decide_True, Bool.true_and, if_true,
            List.filter_cons, List.map_cons]
          rw [this, nextCount_bump_self]
          simp [List.range']
        · have hbeq : (slugify (headingText t.text) == b) = false := by
            simpa using hb
          simp only [extract_headings, hh, he, if_true, if_false,
            processHeading, hid, hbeq, Bool.and_false, if_false,
            List.filter_cons]
          have := ih (bumpCounter c (slugify (headingText t.text))) hrest
          rw [nextCount_bump_ne c _ b (fun hx => hb hx.symm)] at this
          simpa [hbeq] using this
    · simp [extract_headings, countWithBase, hh, ih c hrest]

/-- Among headings without pre-set ids, two records whose texts share a
slug carry distinct anchor IDs. -/
theorem extract_pairwise_slug (doc : List Tag) (c : Counter)
    (hids : ∀ t ∈ doc, t.id.getD "" = "") :
    List.Pairwise (fun a b => slugify a.text = slugify b.text → a.id ≠ b.id)
      (extract_headings doc c).1 := by
  induction doc generalizing c with
  | nil => exact List.Pairwise.nil
  | cons t rest ih =>
    have hrest : ∀ t' ∈ rest, t'.id.getD "" = "" :=
      fun t' ht' => hids t' (List.mem_cons_of_mem _ ht')
    by_cases hh : isHeadingName t.name
    · by_cases he : headingText t.text = ""
      · simpa [extract_headings, hh, he] using ih c hrest
      · have hid : t.id.getD "" = "" := hids t (List.mem_cons_self _ _)
        simp only [extract_headings, hh, he, if_true, if_false,
          processHeading, hid]
        refine List.Pairwise.cons ?_ (ih (bumpCounter c (slugify (headingText t.text))) hrest)
        intro s hs hslug heq
        have hsf : s ∈ ((extract_headings rest
            (bumpCounter c (slugify (headingText t.text)))).1.filter
              (fun r => slugify r.text == slugify (headingText t.text))) := by
          refine List.mem_filter.mpr ⟨hs, ?_⟩
          simpa using hslug.symm
        have hsid : s.id ∈ ((extract_headings rest
            (bumpCounter c (slugify (headingText t.text)))).1.filter
              (fun r => slugify r.text == slugify (headingText t.text))).map
                (fun r => r.id) :=
          List.mem_map_of_mem _ hsf
        rw [extract_ids_of_base rest _ _ hrest, nextCount_bump_self] at hsid
        obtain ⟨j, hj, hje⟩ := List.mem_map.mp hsid
        have hjge : nextCount c (slugify (headingText t.text)) + 1 ≤ j :=
          (List.mem_range'_1.mp hj).1
        have : nextCount c (slugify (headingText t.text)) = j :=
          anchorName_inj _ (heq.trans hje.symm)
        omega
    · simpa [extract_headings, hh] using ih c hrest

/-! ## Claim theorems -/

/-- C5: heading extraction is idempotent on already-anchored markup: the
mutated document of a second run equals the mutated document of the first,
so every `id` attribute present after the first run is unchanged. -/
theorem extract_headings_idempotent (doc : List Tag) :
    (extract_headings (extract_headings doc emptyCounter).2.1 emptyCounter).2.1
      = (extract_headings doc emptyCounter).2.1 :=
  congrArg (fun r => r.2.1) (extract_headings_idem doc emptyCounter)

/-- C6: the TOC fragment holds exactly one link per heading of levels 1–4
with non-empty stripped text (in particular none for a document with no
such heading), and each link's href is `#` followed by the heading's
anchor ID. -/
theorem toc_links_match_headings (doc : List Tag) (color : String) :
    (tocEntries (extract_headings doc emptyCounter).1 color).length
        = (countedHeadings doc).length ∧
    (tocEntries (extract_headings doc emptyCounter).1 color).map TocEntry.href
        = (extract_headings doc emptyCounter).1.map (fun r => "#" ++ r.id) := by
  constructor
  · simpa [tocEntries] using extract_headings_length doc emptyCounter
  · simp only [tocEntries, List.map_map]
    exact List.map_congr_left fun r _ => rfl

/-- C4: a document whose headings are two sibling `h1` elements with text
"Overview" (no pre-existing ids, no other headings) gets the anchor IDs
`overview` and `overview-1`, in document order. -/
theorem overview_headings_anchor_ids :
    (extract_headings [⟨"h1", "Overview", none⟩, ⟨"h1", "Overview", none⟩]
        emptyCounter).1
      = [⟨1, "Overview", "overview"⟩, ⟨1, "Overview", "overview-1"⟩] := by
  decide

/-- C7: when the document has a body, the augmentation step makes the title
fragment and the TOC fragment its first two children, title first, with
the original content after them. -/
theorem title_and_toc_inserted_first (children : List String)
    (rest title_html toc_html : String) :
    insert_title_and_toc title_html toc_html ⟨some children, rest⟩
      = ⟨some (title_html :: toc_html :: children), rest⟩ := by
  simp [insert_title_and_toc, bsInsert]

/-- C10: when the converter-produced markup has no body element, the
augmentation step inserts neither fragment and leaves the document
unchanged, without error. -/
theorem no_body_skips_insertion (rest title_html toc_html : String) :
    insert_title_and_toc title_html toc_html ⟨none, rest⟩ = ⟨none, rest⟩ :=
  rfl

/-- C8: when the source path does not exist, both `main`s exit with code 1
before the external converter is invoked and before any temporary file is
created. -/
theorem missing_source_stops_before_converter :
    (main_start false).exitCode = some 1 ∧
    (main_start false).converterInvoked = false ∧
    (main_start false).tempFilesCreated = 0 := by
  decide

/-- C9: the MathJax readiness wait is bounded by 15000 ms, and on timeout
or script-evaluation error the pipeline warns, ends its waiting with the
fixed 5000 ms fallback delay, and still produces the PDF. -/
theorem mathjax_failure_recoverable (e : MathJaxEvent)
    (h : e ≠ MathJaxEvent.ok) :
    wait_for_function_timeout_ms = 15000 ∧
    (render_stage e).warned = true ∧
    (render_stage e).waits.getLast? = some 5000 ∧
    (render_stage e).pdfProduced = true := by
  cases e <;> simp_all [render_stage, wait_for_function_timeout_ms]

/-- Witness for C9 at the timeout event. -/
theorem mathjax_failure_recoverable_witness :
    MathJaxEvent.timeout ≠ MathJaxEvent.ok ∧
    (wait_for_function_timeout_ms = 15000 ∧
     (render_stage MathJaxEvent.timeout).warned = true ∧
     (render_stage MathJaxEvent.timeout).waits.getLast? = some 5000 ∧
     (render_stage MathJaxEvent.timeout).pdfProduced = true) :=
  ⟨by decide, mathjax_failure_recoverable MathJaxEvent.timeout (by decide)⟩

/-- C1 counterexample: anchor IDs are not pairwise distinct in general —
the suffixing scheme only consults the per-slug counter, so with headings
"a", "a", "a-1" the second heading's suffixed anchor `a-1` collides with
the third heading's bare slug `a-1`. -/
theorem anchor_ids_not_globally_unique :
    (extract_headings [⟨"h1", "a", none⟩, ⟨"h1", "a", none⟩, ⟨"h1", "a-1", none⟩]
        emptyCounter).1.map (fun r => r.id) = ["a", "a-1", "a-1"] ∧
    ¬ List.Pairwise (fun a b => a.id ≠ b.id)
      (extract_headings [⟨"h1", "a", none⟩, ⟨"h1", "a", none⟩, ⟨"h1", "a-1", none⟩]
        emptyCounter).1 :=
  ⟨by decide, by decide⟩

/-- C1 amended: for headings without pre-existing ids, anchor IDs are
pairwise distinct among headings sharing the same slug (the k-th repeat
gets the suffix `-k`); distinctness across different slugs, or in the
presence of pre-existing ids, does not hold in general. -/
theorem anchor_ids_unique_within_slug_group (doc : List Tag)
    (hids : ∀ t ∈ doc, t.id.getD "" = "") :
    List.Pairwise (fun a b => slugify a.text = slugify b.text → a.id ≠ b.id)
      (extract_headings doc emptyCounter).1 :=
  extract_pairwise_slug doc emptyCounter hids

/-- Witness for C1's amended statement on a two-"Overview" document. -/
theorem anchor_ids_unique_within_slug_group_witness :
    (∀ t ∈ ([⟨"h1", "Overview", none⟩, ⟨"h1", "Overview", none⟩] : List Tag),
        t.id.getD "" = "") ∧
    List.Pairwise (fun a b => slugify a.text = slugify b.text → a.id ≠ b.id)
      (extract_headings [⟨"h1", "Overview", none⟩, ⟨"h1", "Overview", none⟩]
        emptyCounter).1 :=
  ⟨by decide, anchor_ids_unique_within_slug_group
    [⟨"h1", "Overview", none⟩, ⟨"h1", "Overview", none⟩] (by decide)⟩

/-- C3 counterexample: a pre-existing id is reused verbatim but is not
entered into `heading_counter` (only the slug of the tag's own text is),
so a later heading whose slug equals that id receives the same anchor ID,
not a different one. -/
theorem existing_id_not_registered :
    (extract_headings [⟨"h1", "b", some "foo"⟩, ⟨"h1", "Foo", none⟩]
        emptyCounter).1.map (fun r => r.id) = ["foo", "foo"] ∧
    slugify (headingText "Foo") = "foo" := by
  decide

/-- C3 amended: a heading element carrying a non-empty id yields a record
that reuses that id verbatim (not the slug of its text) and the element is
left unchanged in the mutated document; the counter is bumped only for the
slug of the tag's own text, so the id itself is not registered and offers
no collision protection. -/
theorem existing_id_reused_verbatim (pre post : List Tag) (t : Tag)
    (hname : isHeadingName t.name = true)
    (htext : headingText t.text ≠ "")
    (hid : t.id.getD "" ≠ "") :
    (extract_headings (pre ++ t :: post) emptyCounter).1
      = (extract_headings pre emptyCounter).1
        ++ ⟨tagLevel t.name, headingText t.text, t.id.getD ""⟩
           :: (extract_headings post
                (bumpCounter (extract_headings pre emptyCounter).2.2
                  (slugify (headingText t.text)))).1
    ∧ (extract_headings (pre ++ t :: post) emptyCounter).2.1
      = (extract_headings pre emptyCounter).2.1
        ++ t :: (extract_headings post
                (bumpCounter (extract_headings pre emptyCounter).2.2
                  (slugify (headingText t.text)))).2.1 := by
  rw [extract_headings_append]
  constructor <;>
    simp [extract_headings, processHeading, hname, htext, hid]

/-- Witness for C3 at a one-heading document with a pre-existing id. -/
theorem existing_id_reused_verbatim_witness :
    isHeadingName ("h1" : String) = true ∧
    headingText "b" ≠ "" ∧
    (some "foo").getD "" ≠ "" ∧
    ((extract_headings ([] ++ (⟨"h1", "b", some "foo"⟩ : Tag) :: [])
        emptyCounter).1
      = (extract_headings [] emptyCounter).1
        ++ ⟨tagLevel "h1", headingText "b", (some "foo").getD ""⟩
           :: (extract_headings []
                (bumpCounter (extract_headings [] emptyCounter).2.2
                  (slugify (headingText "b")))).1
    ∧ (extract_headings ([] ++ (⟨"h1", "b", some "foo"⟩ : Tag) :: [])
        emptyCounter).2.1
      = (extract_headings [] emptyCounter).2.1
        ++ (⟨"h1", "b", some "foo"⟩ : Tag)
           :: (extract_headings []
                (bumpCounter (extract_headings [] emptyCounter).2.2
                  (slugify (headingText "b")))).2.1) :=
  ⟨by decide, by decide, by decide,
   existing_id_reused_verbatim [] [] ⟨"h1", "b", some "foo"⟩
     (by decide) (by decide) (by decide)⟩

/-- C2 counterexample: in the basic variant a fatal failure inside the
rendering stage — past the conversion stage — leaves the converter-output
markup file on disk, because `html_path.unlink()` in `main` runs only
after `asyncio.run` returns normally. -/
theorem basic_render_failure_leaves_converter_output :
    ¬ ((run_basic_after_convert RunOutcome.renderError).html = false ∧
       (run_basic_after_convert RunOutcome.renderError).temp = false) := by
  decide

/-- C2 amended: cleanup is guaranteed only for runs that reach the
rendering stage.  After success both variants remove all temporary
markup; after a rendering-stage failure the TOC variant removes both
files while the basic variant removes only the augmented copy (the
converter output remains, per the counterexample).  Failures between
conversion and rendering leave the converter output behind — and, when
`f.write` of the augmented copy fails after `open` created the file, the
augmented copy too. -/
theorem cleanup_after_rendering_stage :
    (run_toc_after_convert RunOutcome.success).html = false ∧
    (run_toc_after_convert RunOutcome.success).temp = false ∧
    (run_toc_after_convert RunOutcome.renderError).html = false ∧
    (run_toc_after_convert RunOutcome.renderError).temp = false ∧
    (run_basic_after_convert RunOutcome.success).html = false ∧
    (run_basic_after_convert RunOutcome.success).temp = false ∧
    (run_basic_after_convert RunOutcome.renderError).temp = false := by
  decide

end NbToPdf
